import Mathlib

/-!
Shallow embedding of the supervisory decision engine of `mcl.py`
(class `ManagerDaemon`): risk assessor, escalation policy, confidence
estimator, and the SQLite-backed state operations (agents, decisions,
interaction logs, config).

Modelling conventions:
* Python floats become `ℚ`; every numeric literal appearing in the source
  (risk weights, thresholds) is exactly representable, so ordering and
  arithmetic agree with the float semantics of the source on the values
  that actually occur.
* A request payload (a flat JSON object of string keys and string values,
  as used everywhere in the source and its tests) is `List (String × String)`;
  `jsonDumps` models `json.dumps` for such objects (compact `", "`/`": "`
  separators, escaping of backslash and double quote; other control-character
  escapes do not occur in the modelled inputs).
* The SQLite database becomes an explicit `DaemonState` record; each table
  is a list in insertion order, `AUTOINCREMENT` ids are explicit counters,
  and `CURRENT_TIMESTAMP` is an integer clock that advances on every insert
  (so timestamps are strictly monotone and `ORDER BY timestamp ASC` is
  insertion order, which is how the source behaves within one process).
* `random.random()` in `should_escalate` becomes an explicit parameter
  `rand`, and the autonomy level read from `manager_config` becomes an
  explicit parameter of the pure policy function.
* Python exceptions become `Except MclError`; `TypeError` and `ValueError`
  are distinct constructors.
-/

namespace Mcl

/-- The three valid autonomy postures.  `set_autonomy_level` rejects every
other string, and `get_autonomy_level` defaults to `balanced`, so the level
consulted by `should_escalate` is always one of these. -/
inductive AutonomyLevel where
  | conservative
  | balanced
  | aggressive
deriving DecidableEq, Repr

/-- String form of an autonomy level, as stored in `manager_config` and in
`manager_decisions.autonomy_level`. -/
def AutonomyLevel.toStr : AutonomyLevel → String
  | .conservative => "conservative"
  | .balanced => "balanced"
  | .aggressive => "aggressive"

/-- `thresholds[level]["confidence_threshold"]` from `should_escalate`. -/
def confidence_threshold : AutonomyLevel → ℚ
  | .conservative => 8/10
  | .balanced => 6/10
  | .aggressive => 4/10

/-- `thresholds[level]["risk_threshold"]` from `should_escalate`. -/
def risk_threshold : AutonomyLevel → ℚ
  | .conservative => 3/10
  | .balanced => 5/10
  | .aggressive => 7/10

/-- `thresholds[level]["escalate_percentage"]` from `should_escalate`. -/
def escalate_percentage : AutonomyLevel → ℚ
  | .conservative => 7/10
  | .balanced => 4/10
  | .aggressive => 2/10

/-- A request payload: a flat JSON object with string keys and values. -/
abbrev Request := List (String × String)

/-- JSON escaping of one character (`json.dumps` escapes backslash and
double quote; other escapes do not occur in the modelled inputs). -/
def jsonEscapeChar (c : Char) : String :=
  if c = '\\' then "\\\\"
  else if c = '"' then "\\\""
  else String.singleton c

/-- JSON escaping of a string body. -/
def jsonEscape (s : String) : String :=
  String.join (s.toList.map jsonEscapeChar)

/-- A JSON string literal. -/
def jsonQuote (s : String) : String :=
  "\"" ++ jsonEscape s ++ "\""

/-- `json.dumps(request_data)` for a flat string-to-string object, with the
default `", "` item separator and `": "` key separator. -/
def jsonDumps (r : Request) : String :=
  "\x7b" ++ String.intercalate ", " (r.map (fun kv => jsonQuote kv.1 ++ ": " ++ jsonQuote kv.2)) ++ "\x7d"

/-- `json.dumps(request_data, indent=2)` for a flat string-to-string
object, as used for the logged request content in `record_decision` and
`simulate_agent_interaction`. -/
def jsonDumpsIndent (r : Request) : String :=
  match r with
  | [] => "\x7b\x7d"
  | _ => "\x7b\n" ++ String.intercalate ",\n"
      (r.map (fun kv => "  " ++ jsonQuote kv.1 ++ ": " ++ jsonQuote kv.2)) ++ "\n\x7d"

/-- Substring containment on character lists: `needle` occurs contiguously
inside the second argument. -/
def seqOccurs (needle : List Char) : List Char → Bool
  | [] => needle.isEmpty
  | c :: t => needle.isPrefixOf (c :: t) || seqOccurs needle t

/-- `keyword in request_str`: Python substring containment.  The blob is
kept as a character list so that the whole check is structurally
computable. -/
def containsKeyword (blob : List Char) (keyword : String) : Bool :=
  seqOccurs keyword.toList blob

/-- `request_str = json.dumps(request_data).lower()` from `_assess_risk`,
as a character list (`str.lower` is per-character `Char.toLower` on the
ASCII content that occurs here). -/
def request_str (r : Request) : List Char :=
  (jsonDumps r).toList.map Char.toLower

/-- The `risk_indicators` table of `_assess_risk`: category name with its
keyword list, in source order. -/
def risk_indicators : List (String × List String) :=
  [("destructive", ["rm -rf", "delete", "drop table", "truncate", "format"]),
   ("system", ["sudo", "chmod 777", "chown", "passwd"]),
   ("network", ["curl -X DELETE", "wget", "ssh", "scp"]),
   ("database", ["alter table", "create table", "migration", "schema"]),
   ("config", ["config", "settings", ".env", "credentials"]),
   ("external", ["http", "api", "webhook"]),
   ("files", ["write", "edit", "move", "copy"]),
   ("install", ["npm install", "pip install", "apt install"]),
   ("read", ["read", "cat", "ls", "grep", "search"]),
   ("test", ["test", "pytest", "jest", "spec"])]

/-- The `risk_weights` table of `_assess_risk`.  Total as a function of the
category name; every category of `risk_indicators` is a listed key. -/
def risk_weights : String → ℚ
  | "destructive" => 1
  | "system" => 95/100
  | "network" => 9/10
  | "database" => 7/10
  | "config" => 6/10
  | "external" => 6/10
  | "files" => 4/10
  | "install" => 3/10
  | "read" => 1/10
  | "test" => 1/10
  | _ => 0

/-- `ManagerDaemon._assess_risk`: starting from `max_risk = 0.0`, for every
category and every keyword of that category, if the keyword occurs in the
lowercased JSON dump of the request, raise `max_risk` to the weight of that category. -/
def assess_risk (r : Request) : ℚ :=
  let s := request_str r
  risk_indicators.foldl
    (fun acc cat =>
      cat.2.foldl (fun a kw => if containsKeyword s kw then max a (risk_weights cat.1) else a) acc)
    0

/-- `ManagerDaemon.should_escalate`, with the autonomy level (read from
`manager_config` in the source) and the fresh uniform draw of
`random.random()` made explicit parameters. -/
def should_escalate (level : AutonomyLevel) (request_data : Request)
    (confidence_score rand : ℚ) : Bool :=
  let risk_score := assess_risk request_data
  if risk_score > risk_threshold level then true
  else if confidence_score < confidence_threshold level then true
  else if rand < escalate_percentage level * (1 - confidence_score) then true
  else false

/-- The category/weight/keyword table exactly as the specification states
it, written from the words of the spec for comparison with the source tables. -/
def specRiskTable : List (String × List String × ℚ) :=
  [("destructive", (["rm -rf", "delete", "drop table", "truncate", "format"], 1)),
   ("system", (["sudo", "chmod 777", "chown", "passwd"], 95/100)),
   ("network", (["curl -X DELETE", "wget", "ssh", "scp"], 9/10)),
   ("database", (["alter table", "create table", "migration", "schema"], 7/10)),
   ("config", (["config", "settings", ".env", "credentials"], 6/10)),
   ("external", (["http", "api", "webhook"], 6/10)),
   ("files", (["write", "edit", "move", "copy"], 4/10)),
   ("install", (["npm install", "pip install", "apt install"], 3/10)),
   ("read", (["read", "cat", "ls", "grep", "search"], 1/10)),
   ("test", (["test", "pytest", "jest", "spec"], 1/10))]

/-- Follows the words of the spec: the maximum weight over all risk categories
having at least one keyword occurring as a substring of the lowercase
serialized blob, or `0` if no keyword matches. -/
def assessRiskSpec (r : Request) : ℚ :=
  let s := request_str r
  (((specRiskTable.filter (fun cw => cw.2.1.any (fun kw => containsKeyword s kw))).map
      (fun cw => cw.2.2)).foldl max 0)

/-- The categories of the source table whose keyword list matches the
serialized request. -/
def matchedCategories (r : Request) : List (String × List String) :=
  risk_indicators.filter fun cat => cat.2.any fun kw => containsKeyword (request_str r) kw

/-! ### Data model and state operations -/

/-- A JSON value as it occurs in the metadata maps the daemon writes:
strings, numbers, and `None`. -/
inductive JVal where
  | jstr : String → JVal
  | jnum : ℚ → JVal
  | jnull : JVal
deriving DecidableEq, Repr

/-- A metadata map, as passed to `log_interaction` and stored (JSON
encoded) in `interaction_logs.metadata`.  The embedding stores the
structured value; `json.dumps`/`json.loads` round-tripping of such a value
is the identity, so encode-on-write plus decode-on-read is modelled as
storing the value itself.  What the embedding does keep from the source is
the Python truthiness test `if metadata` (see `truthyMeta`). -/
abbrev Meta := List (String × JVal)

/-- `json.dumps(metadata) if metadata else None`: `None` and the empty map
are both stored as SQL NULL. -/
def truthyMeta : Option Meta → Option Meta
  | none => none
  | some l => if l = [] then none else some l

/-- A row of the `agents` table. -/
structure Agent where
  id : String
  task_description : String
  repo_path : String
  status : String
  priority : String
  budget : Int
  created_at : Int
deriving DecidableEq, Repr

/-- A row of the `manager_decisions` table. -/
structure Decision where
  id : Nat
  agent_id : String
  request_data : String
  decision : String
  confidence_score : ℚ
  autonomy_level : String
  model_used : String
  user_feedback : Option String
  created_at : Int
deriving DecidableEq, Repr

/-- A row of the `interaction_logs` table. -/
structure LogEntry where
  id : Nat
  agent_id : String
  session_id : String
  interaction_type : String
  direction : String
  content : String
  metadata : Option Meta
  timestamp : Int
deriving DecidableEq, Repr

/-- A result row of `get_agent_logs` / `export_logs(format="json")`: the
log entry columns joined with the task description of the owning agent, with
metadata decoded. -/
structure LogRow where
  id : Nat
  agent_id : String
  task_description : String
  session_id : String
  interaction_type : String
  direction : String
  content : String
  metadata : Option Meta
  timestamp : Int
deriving DecidableEq, Repr

/-- Python exceptions raised by the daemon: `TypeError` and `ValueError`
are distinct types. -/
inductive MclError where
  | typeError : String → MclError
  | valueError : String → MclError
  | integrityError : String → MclError
deriving DecidableEq, Repr

/-- The manager database (`manager.db`): each table as a list in insertion
order, the `AUTOINCREMENT` counters, the `manager_config` row for
`autonomy_level`, and an integer clock standing for `CURRENT_TIMESTAMP`
(advanced on every insert, so timestamps are strictly monotone within one
run, as the text export and session grouping of the source assume). -/
structure DaemonState where
  agents : List Agent
  decisions : List Decision
  logs : List LogEntry
  autonomy_config : Option AutonomyLevel
  next_decision_id : Nat
  next_log_id : Nat
  clock : Int
deriving DecidableEq, Repr

/-- A freshly initialized database (`_init_db` on an empty directory):
empty tables, `AUTOINCREMENT` counters at 1, no config rows. -/
def initState : DaemonState :=
  { agents := [], decisions := [], logs := [], autonomy_config := none,
    next_decision_id := 1, next_log_id := 1, clock := 0 }

/-- `get_autonomy_level`: the stored config value, defaulting to
`balanced` when the row is absent. -/
def get_autonomy_level (s : DaemonState) : AutonomyLevel :=
  s.autonomy_config.getD .balanced

/-- The validation of `set_autonomy_level`: only the three posture strings
parse; every other string raises `ValueError`. -/
def parseAutonomy : String → Option AutonomyLevel
  | "conservative" => some .conservative
  | "balanced" => some .balanced
  | "aggressive" => some .aggressive
  | _ => none

/-- `set_autonomy_level`. -/
def set_autonomy_level (s : DaemonState) (level : String) : Except MclError DaemonState :=
  match parseAutonomy level with
  | some lvl => .ok { s with autonomy_config := some lvl }
  | none => .error (.valueError "Autonomy level must be: conservative, balanced, or aggressive")

/-- `log_interaction`: append one `interaction_logs` row.  The metadata
goes through the `if metadata` truthiness test of the source; no check of
any kind is made on `agent_id` (the declared FOREIGN KEY is never enforced
because the source never issues `PRAGMA foreign_keys = ON`). -/
def log_interaction (s : DaemonState) (agent_id session_id interaction_type direction
    content : String) (metadata : Option Meta) : DaemonState :=
  { s with
    logs := s.logs ++
      [{ id := s.next_log_id, agent_id, session_id, interaction_type, direction, content,
         metadata := truthyMeta metadata, timestamp := s.clock }],
    next_log_id := s.next_log_id + 1,
    clock := s.clock + 1 }

/-- Characterwise `str.upper`, as applied to the decision verdict in the
logged `manager_response` content (kept characterwise so it computes
structurally). -/
def strUpper (s : String) : String :=
  String.mk (s.toList.map Char.toUpper)

/-- `request_data.get("tool")` as a JSON value: the value when the key is
present, JSON null when absent. -/
def requestTool (r : Request) : JVal :=
  match r.lookup "tool" with
  | some v => .jstr v
  | none => .jnull

/-- `spawn_agent`.  The fresh `uuid4` prefix is an explicit parameter; the
task-memory file written under the agent directory is file I/O outside the
database and is not part of the state.  Validation order follows the
source: `None` raises `TypeError`; an empty or whitespace-only description
raises `ValueError` (`not task_description or not task_description.strip()`
is equivalent to every character being whitespace).  The agents INSERT
fails on a duplicate primary key (modelling SQLite PRIMARY KEY
enforcement, which unlike the FOREIGN KEY is always on); the session id
synthesized from the wall clock becomes `session_` plus the model clock. -/
def spawn_agent (s : DaemonState) (task_description : Option String)
    (repo_path priority : String) (budget : Int) (agent_id : String) :
    Except MclError (DaemonState × String × String) :=
  match task_description with
  | none => .error (.typeError "Task description cannot be None")
  | some task =>
    if task.toList.all (fun c => c.isWhitespace) then
      .error (.valueError "Task description cannot be empty")
    else if s.agents.any (fun a => a.id == agent_id) then
      .error (.integrityError "UNIQUE constraint failed: agents.id")
    else
      let s1 : DaemonState :=
        { s with
          agents := s.agents ++
            [{ id := agent_id, task_description := task, repo_path, status := "active",
               priority, budget, created_at := s.clock }],
          clock := s.clock + 1 }
      let session_id := "session_" ++ toString s1.clock
      let s2 := log_interaction s1 agent_id session_id "system_event" "system"
        ("Agent spawned for task: " ++ task)
        (some [("repo_path", .jstr repo_path), ("priority", .jstr priority),
               ("budget", .jnum (budget : ℚ)),
               ("agent_dir", .jstr ("agents/" ++ agent_id))])
      .ok (s2, agent_id, session_id)

/-- `record_decision`: insert one `manager_decisions` row tagged with the
current autonomy level (no clamping or validation of the given confidence
score), then append the `agent_request` and `manager_response` log
entries.  `if not session_id` is Python truthiness: both `None` and the
empty string synthesize a session id from the clock.  The
`"{confidence_score:.2f}"` float formatting of the reasoning string is
rendered with `toString`. -/
def record_decision (s : DaemonState) (agent_id : String) (request_data : Request)
    (decision : String) (confidence_score : ℚ) (model_used : String)
    (session_id : Option String) : DaemonState :=
  let lvl := (get_autonomy_level s).toStr
  let s1 : DaemonState :=
    { s with
      decisions := s.decisions ++
        [{ id := s.next_decision_id, agent_id, request_data := jsonDumps request_data, decision,
           confidence_score, autonomy_level := lvl, model_used, user_feedback := none,
           created_at := s.clock }],
      next_decision_id := s.next_decision_id + 1,
      clock := s.clock + 1 }
  let sid := match session_id with
    | some x => if x = "" then "session_" ++ toString s1.clock else x
    | none => "session_" ++ toString s1.clock
  let s2 := log_interaction s1 agent_id sid "agent_request" "agent_to_manager"
    (jsonDumpsIndent request_data)
    (some [("tool", requestTool request_data), ("risk_assessment", .jstr "pending")])
  log_interaction s2 agent_id sid "manager_response" "manager_to_agent"
    ("Decision: " ++ strUpper decision)
    (some [("confidence_score", .jnum confidence_score),
           ("autonomy_level", .jstr lvl),
           ("model_used", .jstr model_used),
           ("decision_reasoning",
             .jstr ("Confidence: " ++ toString confidence_score ++ ", Autonomy: " ++ lvl))])

/-- `provide_feedback`: reject anything but `correct`/`incorrect` before
touching the store; otherwise one UPDATE setting `user_feedback` on every
row whose id matches (ids are unique, so at most one), leaving all other
columns and tables untouched. -/
def provide_feedback (s : DaemonState) (decision_id : Nat) (feedback : String) :
    Except MclError DaemonState :=
  if feedback = "correct" ∨ feedback = "incorrect" then
    .ok { s with
      decisions := s.decisions.map fun d =>
        if d.id = decision_id then { d with user_feedback := some feedback } else d }
  else
    .error (.valueError "Feedback must be \x27correct\x27 or \x27incorrect\x27")

/-- The 30-day window of `calculate_confidence_score`, in the units of the
model clock. -/
def thirty_days : Int := 30

/-- The rows selected by `calculate_confidence_score`: non-null
`user_feedback` and `created_at > datetime(now, -30 days)`. -/
def recentFeedback (s : DaemonState) : List Decision :=
  s.decisions.filter fun d =>
    d.user_feedback.isSome && decide (s.clock - thirty_days < d.created_at)

/-- `calculate_confidence_score`.  The `(avg_confidence or 0.5)` of the
source is Python truthiness: it substitutes 0.5 when the SQL AVG is NULL
(no selected rows — already the early-return branch) and also when the
average of the stored confidence scores is exactly 0.0. -/
def calculate_confidence_score (s : DaemonState) : ℚ :=
  let rows := recentFeedback s
  if rows.length = 0 then 1/2
  else
    let total : ℚ := rows.length
    let correct : ℚ := (rows.filter fun d => d.user_feedback == some "correct").length
    let accuracy : ℚ := correct / total
    let avg_confidence : ℚ := (rows.map Decision.confidence_score).sum / total
    min (max (accuracy * (7/10) +
        (if avg_confidence = 0 then 1/2 else avg_confidence) * (3/10)) 0) 1

/-- Python truthiness of an optional string filter argument: the SQL
condition is added only when the argument is neither `None` nor empty. -/
def optFilter (f : Option String) (v : String) : Bool :=
  match f with
  | none => true
  | some x => if x = "" then true else v == x

/-- Python truthiness of the `limit` argument: `None` and `0` both mean
no LIMIT clause. -/
def applyLimit (limit : Option Nat) (l : List LogRow) : List LogRow :=
  match limit with
  | none => l
  | some n => if n = 0 then l else l.take n

/-- `get_agent_logs`: the log rows joined with `agents` (an inner join, so
rows whose agent id matches no agent are dropped), filtered by the truthy
arguments, in `timestamp ASC` order (the log list of the model is kept in
insertion order and the clock is strictly monotone, so that order is
already timestamp order), then limited. -/
def get_agent_logs (s : DaemonState) (agent_id session_id : Option String)
    (limit : Option Nat) (interaction_type : Option String) : List LogRow :=
  applyLimit limit <|
    (s.logs.filter fun e =>
        optFilter agent_id e.agent_id && optFilter session_id e.session_id &&
        optFilter interaction_type e.interaction_type).flatMap
      fun e =>
        (s.agents.filter fun a => a.id == e.agent_id).map fun a =>
          { id := e.id, agent_id := e.agent_id, task_description := a.task_description,
            session_id := e.session_id, interaction_type := e.interaction_type,
            direction := e.direction, content := e.content, metadata := e.metadata,
            timestamp := e.timestamp }

/-- The `format == "json"` branch of `export_logs`: one structured record
per row of `get_agent_logs(agent_id)`, with metadata JSON-decoded (the
identity on the structured value stored by the embedding).  The `"text"`
rendering branch and the unsupported-format `ValueError` are not needed by
any claim and are not modelled. -/
def export_logs_json (s : DaemonState) (agent_id : String) : List LogRow :=
  get_agent_logs s (some agent_id) none none none

/-- A database holding one agent `a1`, as left by a successful spawn of a
single agent (used as a concrete evaluation point). -/
def exAgentState : DaemonState :=
  { agents := [{ id := "a1", task_description := "Fix bug", repo_path := "/repo",
                 status := "active", priority := "normal", budget := 100, created_at := 0 }],
    decisions := [], logs := [], autonomy_config := none,
    next_decision_id := 1, next_log_id := 1, clock := 1 }

/-- A database holding one agent and one decision with id 1 (used as a
concrete evaluation point for the feedback operations). -/
def exDecisionState : DaemonState :=
  { agents := [{ id := "a1", task_description := "Fix bug", repo_path := "/repo",
                 status := "active", priority := "normal", budget := 100, created_at := 0 }],
    decisions := [{ id := 1, agent_id := "a1", request_data := "\x7b\x7d",
                    decision := "approve", confidence_score := 1, autonomy_level := "balanced",
                    model_used := "gpt-4o", user_feedback := none, created_at := 1 }],
    logs := [], autonomy_config := none,
    next_decision_id := 2, next_log_id := 1, clock := 2 }

/-- A decision row carrying feedback `correct` with stored confidence
exactly 0.0 — what `record_decision(..., confidence_score=0.0)` followed by
`provide_feedback(1, "correct")` leaves in `manager_decisions`. -/
def exZeroDecision : Decision :=
  { id := 1, agent_id := "a1", request_data := "\x7b\x7d", decision := "approve",
    confidence_score := 0, autonomy_level := "balanced", model_used := "gpt-4o",
    user_feedback := some "correct", created_at := 0 }

/-- A database holding one agent and the single decision `exZeroDecision`,
created inside the 30-day window (the two log appends of the pipeline are
elided since `calculate_confidence_score` reads only decisions). -/
def exZeroConfState : DaemonState :=
  { agents := [{ id := "a1", task_description := "Fix bug", repo_path := "/repo",
                 status := "active", priority := "normal", budget := 100, created_at := 0 }],
    decisions := [exZeroDecision],
    logs := [], autonomy_config := none,
    next_decision_id := 2, next_log_id := 1, clock := 1 }

/-! ### Helper lemmas for the risk assessor and escalation policy -/

theorem foldl_if_max (p : String → Bool) (w : ℚ) :
    ∀ (kws : List String) (a : ℚ),
      kws.foldl (fun a kw => if p kw then max a w else a) a =
        if kws.any p then max a w else a := by
  intro kws
  induction kws with
  | nil => intro a; simp
  | cons k t ih =>
    intro a
    by_cases h : p k
    · cases ht : t.any p <;> simp [h, ht, ih, max_assoc]
    · simp [h, ih]

theorem foldl_filter_max (q : String × List String → Bool) (w : String × List String → ℚ) :
    ∀ (tbl : List (String × List String)) (a : ℚ),
      tbl.foldl (fun acc cat => if q cat then max acc (w cat) else acc) a =
        ((tbl.filter q).map w).foldl max a := by
  intro tbl
  induction tbl with
  | nil => intro a; simp
  | cons c t ih => intro a; by_cases h : q c <;> simp [List.filter_cons, h, ih]

/-- `_assess_risk` reduced to a fold of `max` over the weights of the
matching categories. -/
theorem assess_risk_eq (r : Request) :
    assess_risk r = ((matchedCategories r).map fun cat => risk_weights cat.1).foldl max 0 := by
  have hf : (fun (acc : ℚ) (cat : String × List String) =>
        cat.2.foldl
          (fun a kw => if containsKeyword (request_str r) kw then max a (risk_weights cat.1) else a)
          acc)
      = (fun acc cat =>
          if cat.2.any (fun kw => containsKeyword (request_str r) kw) then
            max acc (risk_weights cat.1)
          else acc) := by
    funext acc cat
    exact foldl_if_max _ _ _ _
  simp only [assess_risk]
  rw [hf, foldl_filter_max]
  rfl

theorem assess_risk_rmrf :
    assess_risk [("tool", "bash"), ("command", "rm -rf readme")] = 1 := by
  rw [assess_risk_eq]
  have h : matchedCategories [("tool", "bash"), ("command", "rm -rf readme")] =
      [("destructive", ["rm -rf", "delete", "drop table", "truncate", "format"]),
       ("read", ["read", "cat", "ls", "grep", "search"])] := by decide
  rw [h]
  have h1 : risk_weights "destructive" = 1 := rfl
  have h2 : risk_weights "read" = 1/10 := rfl
  simp only [List.map_cons, List.map_nil, List.foldl_cons, List.foldl_nil, h1, h2]
  norm_num [max_def]

theorem assess_risk_nil : assess_risk ([] : Request) = 0 := by
  rw [assess_risk_eq]
  have h : matchedCategories ([] : Request) = [] := by decide
  rw [h]
  rfl

/-! ### Claims about the pure policy functions -/

/-- C2: `_assess_risk` returns the maximum weight over all risk categories
having at least one keyword occurring as a substring of the lowercase
serialized blob (0 if none), with exactly the claimed category/weight
table, and a request matching both a destructive and a read keyword scores
1.0 — the maximum, not the sum. -/
theorem C2_assess_risk_is_max_over_table :
    (∀ r : Request, assess_risk r = assessRiskSpec r) ∧
    assess_risk [("tool", "bash"), ("command", "rm -rf readme")] = 1 := by
  constructor
  · intro r
    rw [assess_risk_eq]
    have htbl : specRiskTable =
        risk_indicators.map (fun cat => (cat.1, cat.2, risk_weights cat.1)) := rfl
    simp only [assessRiskSpec, htbl, matchedCategories, List.filter_map, List.map_map]
    rfl
  · exact assess_risk_rmrf

/-- C1: for every posture and request, escalation fires whenever the risk
score exceeds the risk threshold of the posture (regardless of confidence), and
whenever confidence is below the confidence threshold of the posture
(regardless of risk); when risk is at or below the threshold and
confidence at or above it, the outcome is exactly the comparison of the
random draw with `escalate_percentage * (1 - confidence)`; and the
per-posture constant table is exactly as claimed. -/
theorem C1_should_escalate_policy :
    ∀ (level : AutonomyLevel) (req : Request) (c rand : ℚ),
      (risk_threshold level < assess_risk req → should_escalate level req c rand = true) ∧
      (c < confidence_threshold level → should_escalate level req c rand = true) ∧
      (assess_risk req ≤ risk_threshold level → confidence_threshold level ≤ c →
        (should_escalate level req c rand = true ↔
          rand < escalate_percentage level * (1 - c))) ∧
      (confidence_threshold .conservative = 8/10 ∧ risk_threshold .conservative = 3/10 ∧
        escalate_percentage .conservative = 7/10) ∧
      (confidence_threshold .balanced = 6/10 ∧ risk_threshold .balanced = 5/10 ∧
        escalate_percentage .balanced = 4/10) ∧
      (confidence_threshold .aggressive = 4/10 ∧ risk_threshold .aggressive = 7/10 ∧
        escalate_percentage .aggressive = 2/10) := by
  intro level req c rand
  refine ⟨?_, ?_, ?_, ⟨rfl, rfl, rfl⟩, ⟨rfl, rfl, rfl⟩, ⟨rfl, rfl, rfl⟩⟩
  · intro h
    simp [should_escalate, h]
  · intro h
    simp [should_escalate, h]
  · intro h1 h2
    simp [should_escalate, not_lt.mpr h1, not_lt.mpr h2]

/-- Witness for C1: a destructive request under the conservative posture
escalates via the risk branch. -/
theorem C1_should_escalate_policy_witness :
    risk_threshold .conservative < assess_risk [("tool", "bash"), ("command", "rm -rf readme")] ∧
    should_escalate .conservative [("tool", "bash"), ("command", "rm -rf readme")] (9/10) (1/2)
      = true := by
  have hrisk : risk_threshold AutonomyLevel.conservative <
      assess_risk [("tool", "bash"), ("command", "rm -rf readme")] := by
    rw [assess_risk_rmrf]
    norm_num [risk_threshold]
  exact ⟨hrisk,
    (C1_should_escalate_policy .conservative [("tool", "bash"), ("command", "rm -rf readme")]
      (9/10) (1/2)).1 hrisk⟩

/-- C10: for a fixed posture, request, and random draw, escalation is
antitone in the confidence score: lowering the confidence can only turn a
non-escalation into an escalation, never the reverse. -/
theorem C10_escalation_antitone_in_confidence :
    ∀ (level : AutonomyLevel) (req : Request) (c1 c2 rand : ℚ),
      0 ≤ rand → rand < 1 → c1 ≤ c2 →
      should_escalate level req c2 rand = true →
      should_escalate level req c1 rand = true := by
  intro level req c1 c2 rand _ _ h12 h2
  have hep : 0 ≤ escalate_percentage level := by
    cases level <;> norm_num [escalate_percentage]
  by_cases hr : risk_threshold level < assess_risk req
  · simp [should_escalate, hr]
  · by_cases hc : c1 < confidence_threshold level
    · simp [should_escalate, hc]
    · push_neg at hc
      have hc2 : ¬ (c2 < confidence_threshold level) := not_lt.mpr (le_trans hc h12)
      have h2' : rand < escalate_percentage level * (1 - c2) := by
        simpa [should_escalate, hr, hc2] using h2
      have hmono : escalate_percentage level * (1 - c2) ≤ escalate_percentage level * (1 - c1) :=
        mul_le_mul_of_nonneg_left (by linarith) hep
      have hlt : rand < escalate_percentage level * (1 - c1) := lt_of_lt_of_le h2' hmono
      simp [should_escalate, hr, not_lt.mpr hc, hlt]

/-- Witness for C10: in the balanced posture with a keyword-free request,
confidence 0.8 escalates at draw 0, and so does the lower confidence 0.7. -/
theorem C10_escalation_antitone_in_confidence_witness :
    (0:ℚ) ≤ 0 ∧ (0:ℚ) < 1 ∧ (7/10:ℚ) ≤ 8/10 ∧
    should_escalate .balanced [] (8/10) 0 = true ∧
    should_escalate .balanced [] (7/10) 0 = true := by
  have h2 : should_escalate .balanced [] (8/10) 0 = true := by
    simp only [should_escalate, assess_risk_nil]
    norm_num [risk_threshold, confidence_threshold, escalate_percentage]
  exact ⟨le_refl 0, by norm_num, by norm_num, h2,
    C10_escalation_antitone_in_confidence .balanced [] (7/10) (8/10) 0 (le_refl 0)
      (by norm_num) (by norm_num) h2⟩

/-! ### Helper lemmas for the confidence and risk bounds -/

theorem zero_le_foldl_max (l : List ℚ) : ∀ a : ℚ, a ≤ l.foldl max a := by
  induction l with
  | nil => intro a; simp
  | cons x t ih => intro a; exact le_trans (le_max_left a x) (ih (max a x))

theorem foldl_max_le (l : List ℚ) : ∀ a b : ℚ, a ≤ b → (∀ x ∈ l, x ≤ b) → l.foldl max a ≤ b := by
  induction l with
  | nil => intro a b hab _; simpa using hab
  | cons x t ih =>
    intro a b hab hx
    exact ih (max a x) b (max_le hab (hx x (by simp))) (fun y hy => hx y (by simp [hy]))

theorem risk_weights_bounds (c : String) : 0 ≤ risk_weights c ∧ risk_weights c ≤ 1 := by
  unfold risk_weights
  split <;> norm_num

/-! ### Claims about the stateful operations -/

/-- Counterexample to C3 as stated: in a store whose feedback-bearing
30-day window is the single decision with feedback `correct` and stored
confidence exactly 0.0, the code returns clamp(0.7·1 + 0.3·0.5) = 0.85
because `(avg_confidence or 0.5)` treats the average 0.0 as falsy, while
the claimed formula clamp(0.7·accuracy + 0.3·avg_confidence) gives 0.7. -/
theorem C3_zero_avg_counterexample :
    recentFeedback exZeroConfState = [exZeroDecision] ∧
    calculate_confidence_score exZeroConfState = 85/100 ∧
    calculate_confidence_score exZeroConfState ≠
      min (max ((7/10) * ((((recentFeedback exZeroConfState).filter
              fun d => d.user_feedback == some "correct").length : ℚ)
            / ((recentFeedback exZeroConfState).length : ℚ))
          + (3/10) * (((recentFeedback exZeroConfState).map Decision.confidence_score).sum
            / ((recentFeedback exZeroConfState).length : ℚ))) 0) 1 := by
  have hrf : recentFeedback exZeroConfState = [exZeroDecision] := rfl
  have hfl : ([exZeroDecision].filter fun d => d.user_feedback == some "correct")
      = [exZeroDecision] := rfl
  have hmap : [exZeroDecision].map Decision.confidence_score = [(0:ℚ)] := rfl
  have hval : calculate_confidence_score exZeroConfState = 85/100 := by
    simp only [calculate_confidence_score, hrf, hfl, hmap]
    norm_num [min_def, max_def]
  refine ⟨hrf, hval, ?_⟩
  rw [hval, hrf, hfl, hmap]
  norm_num [min_def, max_def]

/-- C3 (amended): `calculate_confidence_score` returns exactly 0.5 when no
stored decision has non-null feedback created within the trailing 30 days;
otherwise, over exactly that set, it returns
clamp(0.7·accuracy + 0.3·avg, 0, 1) where avg is the mean stored
confidence except that a mean of exactly 0.0 is replaced by 0.5 (the
Python-truthiness fallback `avg_confidence or 0.5` of the source). -/
theorem C3_confidence_score_formula (s : DaemonState) :
    calculate_confidence_score s =
      (let R := s.decisions.filter fun d =>
        d.user_feedback.isSome && decide (s.clock - thirty_days < d.created_at)
      if R = [] then 1/2
      else
        min (max ((7/10) * (((R.filter fun d => d.user_feedback == some "correct").length : ℚ)
              / (R.length : ℚ))
            + (3/10) * (if ((R.map Decision.confidence_score).sum) / (R.length : ℚ) = 0
                then (1/2 : ℚ)
                else ((R.map Decision.confidence_score).sum) / (R.length : ℚ))) 0) 1) := by
  simp only [calculate_confidence_score, recentFeedback]
  set R := s.decisions.filter fun d =>
    d.user_feedback.isSome && decide (s.clock - thirty_days < d.created_at) with hR
  by_cases h : R = []
  · simp [h]
  · have hlen : ¬ (R.length = 0) := by simpa [List.length_eq_zero] using h
    simp only [h, hlen, if_neg, if_false]
    have harith :
        (((R.filter fun d => d.user_feedback == some "correct").length : ℚ) / (R.length : ℚ))
            * (7/10)
          + (if ((R.map Decision.confidence_score).sum) / (R.length : ℚ) = 0 then (1/2 : ℚ)
              else ((R.map Decision.confidence_score).sum) / (R.length : ℚ)) * (3/10)
        = (7/10) * (((R.filter fun d => d.user_feedback == some "correct").length : ℚ)
              / (R.length : ℚ))
            + (3/10) * (if ((R.map Decision.confidence_score).sum) / (R.length : ℚ) = 0
                then (1/2 : ℚ)
                else ((R.map Decision.confidence_score).sum) / (R.length : ℚ)) := by
      ring
    rw [harith]

/-- Counterexample to C4 as stated: `record_decision` persists a
caller-supplied confidence score of 2.0 unchanged, outside [0, 1]. -/
theorem C4_record_no_clamp_counterexample :
    (record_decision initState "a1" [] "approve" 2 "gpt-4o" none).decisions.map
        Decision.confidence_score = [2] ∧ ¬ ((2:ℚ) ≤ 1) := by
  exact ⟨rfl, by norm_num⟩

/-- C4 (amended): the two computed scores are always clamped to [0, 1],
and `record_decision` preserves the stored-score invariant whenever the
caller-supplied confidence is itself in [0, 1] (as it is in the facade
pipeline, which passes `calculate_confidence_score` output); it does not
clamp arbitrary caller input. -/
theorem C4_scores_bounded :
    (∀ s : DaemonState,
      0 ≤ calculate_confidence_score s ∧ calculate_confidence_score s ≤ 1) ∧
    (∀ r : Request, 0 ≤ assess_risk r ∧ assess_risk r ≤ 1) ∧
    (∀ (s : DaemonState) (agent_id : String) (request_data : Request) (decision : String)
        (c : ℚ) (model_used : String) (session_id : Option String),
      0 ≤ c → c ≤ 1 →
      (∀ d ∈ s.decisions, 0 ≤ d.confidence_score ∧ d.confidence_score ≤ 1) →
      ∀ d ∈ (record_decision s agent_id request_data decision c model_used session_id).decisions,
        0 ≤ d.confidence_score ∧ d.confidence_score ≤ 1) := by
  refine ⟨?_, ?_, ?_⟩
  · intro s
    unfold calculate_confidence_score
    dsimp only
    split
    · norm_num
    · exact ⟨le_min (le_max_right _ 0) (by norm_num), min_le_right _ 1⟩
  · intro r
    rw [assess_risk_eq]
    constructor
    · exact zero_le_foldl_max _ 0
    · refine foldl_max_le _ 0 1 (by norm_num) ?_
      intro x hx
      simp only [List.mem_map] at hx
      obtain ⟨cat, _, rfl⟩ := hx
      exact (risk_weights_bounds cat.1).2
  · intro s aid req dec c mu sid h0 h1 hall d hd
    have hdec : (record_decision s aid req dec c mu sid).decisions =
        s.decisions ++
          [{ id := s.next_decision_id, agent_id := aid, request_data := jsonDumps req,
             decision := dec, confidence_score := c,
             autonomy_level := (get_autonomy_level s).toStr, model_used := mu,
             user_feedback := none, created_at := s.clock }] := rfl
    rw [hdec] at hd
    rcases List.mem_append.mp hd with h | h
    · exact hall d h
    · rw [List.mem_singleton.mp h]
      exact ⟨h0, h1⟩

/-- Witness for C4 (amended): recording with in-range confidence 1 starting
from the empty store keeps every stored score in range. -/
theorem C4_scores_bounded_witness :
    (0:ℚ) ≤ 1 ∧ (1:ℚ) ≤ 1 ∧
    (∀ d ∈ initState.decisions, 0 ≤ d.confidence_score ∧ d.confidence_score ≤ 1) ∧
    (∀ d ∈ (record_decision initState "a1" [] "approve" 1 "gpt-4o" none).decisions,
      0 ≤ d.confidence_score ∧ d.confidence_score ≤ 1) := by
  refine ⟨by norm_num, le_refl 1, ?_, ?_⟩
  · intro d hd
    simp [initState] at hd
  · exact C4_scores_bounded.2.2 initState "a1" [] "approve" 1 "gpt-4o" none (by norm_num)
      (le_refl 1) (by intro d hd; simp [initState] at hd)

/-- C5 at the failing input: on a fresh database, `log_interaction` for
the nonexistent agent id `ghost` inserts a dangling log row — the FOREIGN
KEY declared in the schema is never enforced because the source never
issues `PRAGMA foreign_keys = ON`. -/
theorem C5_dangling_log_row :
    (log_interaction initState "ghost" "s1" "agent_request" "agent_to_manager" "hi" none).logs.map
        LogEntry.agent_id = ["ghost"] ∧
    (log_interaction initState "ghost" "s1" "agent_request" "agent_to_manager" "hi" none).agents
        = [] :=
  ⟨rfl, rfl⟩

/-- C6: `spawn_agent` raises `TypeError` for an absent task description and
the distinct `ValueError` for an empty or whitespace-only one; on success
it appends exactly one agent row with status `active` and exactly one
`system_event` log entry for the new agent whose metadata carries the
given repo path, priority and budget. -/
theorem C6_spawn_validation_and_effects :
    ∀ (s : DaemonState) (task repo priority : String) (budget : Int) (aid : String),
      (spawn_agent s none repo priority budget aid =
        .error (.typeError "Task description cannot be None")) ∧
      (MclError.typeError "Task description cannot be None" ≠
        MclError.valueError "Task description cannot be empty") ∧
      (task.toList.all (fun c => c.isWhitespace) = true →
        spawn_agent s (some task) repo priority budget aid =
          .error (.valueError "Task description cannot be empty")) ∧
      (task.toList.all (fun c => c.isWhitespace) = false →
        s.agents.any (fun a => a.id == aid) = false →
        ∃ (s2 : DaemonState) (sid : String) (e : LogEntry),
          spawn_agent s (some task) repo priority budget aid = .ok (s2, aid, sid) ∧
          s2.agents = s.agents ++
            [{ id := aid, task_description := task, repo_path := repo, status := "active",
               priority := priority, budget := budget, created_at := s.clock }] ∧
          s2.logs = s.logs ++ [e] ∧
          e.agent_id = aid ∧ e.interaction_type = "system_event" ∧
          ∃ m : Meta, e.metadata = some m ∧
            ("repo_path", JVal.jstr repo) ∈ m ∧ ("priority", JVal.jstr priority) ∈ m ∧
            ("budget", JVal.jnum (budget : ℚ)) ∈ m) := by
  intro s task repo priority budget aid
  refine ⟨rfl, by simp, ?_, ?_⟩
  · intro h
    simp only [spawn_agent]
    rw [h]
    simp
  · intro h1 h2
    simp only [spawn_agent, h1, h2, Bool.false_eq_true, if_false, log_interaction]
    exact ⟨_, _, _, rfl, rfl, rfl, rfl, rfl, _, rfl, by simp, by simp, by simp⟩

/-- Witness for C6: spawning `Fix bug` in `/repo` from the fresh database
succeeds with the claimed effects. -/
theorem C6_spawn_validation_and_effects_witness :
    ("Fix bug".toList.all (fun c => c.isWhitespace) = false) ∧
    (initState.agents.any (fun a => a.id == "a1") = false) ∧
    (∃ (s2 : DaemonState) (sid : String) (e : LogEntry),
      spawn_agent initState (some "Fix bug") "/repo" "normal" 100 "a1" = .ok (s2, "a1", sid) ∧
      s2.agents = initState.agents ++
        [{ id := "a1", task_description := "Fix bug", repo_path := "/repo", status := "active",
           priority := "normal", budget := 100, created_at := initState.clock }] ∧
      s2.logs = initState.logs ++ [e] ∧
      e.agent_id = "a1" ∧ e.interaction_type = "system_event" ∧
      ∃ m : Meta, e.metadata = some m ∧
        ("repo_path", JVal.jstr "/repo") ∈ m ∧ ("priority", JVal.jstr "normal") ∈ m ∧
        ("budget", JVal.jnum ((100 : Int) : ℚ)) ∈ m) := by
  refine ⟨by decide, by decide, ?_⟩
  exact (C6_spawn_validation_and_effects initState "Fix bug" "/repo" "normal" 100 "a1").2.2.2
    (by decide) (by decide)

/-- C7: `provide_feedback` rejects any feedback other than
`correct`/`incorrect` with a `ValueError` before touching the store; for a
valid value it returns a state identical except that each decision row
whose id matches has `user_feedback` set to the given value, every other
column unchanged. -/
theorem C7_feedback_validation_and_update :
    ∀ (s : DaemonState) (decision_id : Nat) (feedback : String),
      (feedback ≠ "correct" → feedback ≠ "incorrect" →
        provide_feedback s decision_id feedback =
          .error (.valueError "Feedback must be \x27correct\x27 or \x27incorrect\x27")) ∧
      (feedback = "correct" ∨ feedback = "incorrect" →
        ∃ s2, provide_feedback s decision_id feedback = .ok s2 ∧
          s2.agents = s.agents ∧ s2.logs = s.logs ∧
          s2.decisions.length = s.decisions.length ∧
          ∀ i : Nat, i < s.decisions.length →
            ∃ d d2 : Decision, s.decisions.get? i = some d ∧ s2.decisions.get? i = some d2 ∧
              d2.id = d.id ∧ d2.agent_id = d.agent_id ∧ d2.request_data = d.request_data ∧
              d2.decision = d.decision ∧ d2.confidence_score = d.confidence_score ∧
              d2.autonomy_level = d.autonomy_level ∧ d2.model_used = d.model_used ∧
              d2.created_at = d.created_at ∧
              d2.user_feedback =
                (if d.id = decision_id then some feedback else d.user_feedback)) := by
  intro s did fb
  constructor
  · intro h1 h2
    simp [provide_feedback, h1, h2]
  · intro hv
    refine ⟨{ s with decisions := s.decisions.map fun d =>
        if d.id = did then { d with user_feedback := some fb } else d }, ?_, rfl, rfl, ?_, ?_⟩
    · unfold provide_feedback
      rw [if_pos hv]
    · simp
    · intro i hi
      obtain ⟨d, hd⟩ : ∃ d, s.decisions.get? i = some d := by
        cases hget : s.decisions.get? i with
        | none => exact absurd (List.get?_eq_none.mp hget) (by omega)
        | some d => exact ⟨d, rfl⟩
      refine ⟨d, if d.id = did then { d with user_feedback := some fb } else d, hd, ?_, ?_⟩
      · rw [List.get?_map, hd]
        rfl
      · by_cases hid : d.id = did <;> simp [hid]

/-- Witness for C7: valid feedback `correct` on decision 1 of a store
holding that decision. -/
theorem C7_feedback_validation_and_update_witness :
    ("correct" = "correct" ∨ "correct" = "incorrect") ∧
    (∃ s2, provide_feedback exDecisionState 1 "correct" = .ok s2 ∧
      s2.agents = exDecisionState.agents ∧ s2.logs = exDecisionState.logs ∧
      s2.decisions.length = exDecisionState.decisions.length ∧
      ∀ i : Nat, i < exDecisionState.decisions.length →
        ∃ d d2 : Decision, exDecisionState.decisions.get? i = some d ∧
          s2.decisions.get? i = some d2 ∧
          d2.id = d.id ∧ d2.agent_id = d.agent_id ∧ d2.request_data = d.request_data ∧
          d2.decision = d.decision ∧ d2.confidence_score = d.confidence_score ∧
          d2.autonomy_level = d.autonomy_level ∧ d2.model_used = d.model_used ∧
          d2.created_at = d.created_at ∧
          d2.user_feedback = (if d.id = 1 then some "correct" else d.user_feedback)) :=
  ⟨Or.inl rfl,
    (C7_feedback_validation_and_update exDecisionState 1 "correct").2 (Or.inl rfl)⟩

/-- C9: valid feedback for a decision id that matches no stored decision
completes without error and returns the store unchanged — a silent no-op,
not a not-found error. -/
theorem C9_missing_decision_noop :
    ∀ (s : DaemonState) (decision_id : Nat) (feedback : String),
      (feedback = "correct" ∨ feedback = "incorrect") →
      s.decisions.all (fun d => d.id != decision_id) = true →
      provide_feedback s decision_id feedback = .ok s := by
  intro s did fb hv hall
  unfold provide_feedback
  rw [if_pos hv]
  have hmap : (s.decisions.map fun d =>
      if d.id = did then { d with user_feedback := some fb } else d) = s.decisions := by
    have h1 : ∀ d ∈ s.decisions,
        (if d.id = did then { d with user_feedback := some fb } else d) = d := by
      intro d hd
      have hne : d.id ≠ did := by
        have := List.all_eq_true.mp hall d hd
        simpa [bne_iff_ne] using this
      simp [hne]
    calc (s.decisions.map fun d =>
          if d.id = did then { d with user_feedback := some fb } else d)
        = s.decisions.map id := List.map_congr_left h1
      _ = s.decisions := List.map_id _
  rw [hmap]

/-- Witness for C9: feedback `correct` for the absent decision id 99
returns the one-decision store unchanged. -/
theorem C9_missing_decision_noop_witness :
    ("correct" = "correct" ∨ "correct" = "incorrect") ∧
    exDecisionState.decisions.all (fun d => d.id != 99) = true ∧
    provide_feedback exDecisionState 99 "correct" = .ok exDecisionState :=
  ⟨Or.inl rfl, by decide,
    C9_missing_decision_noop exDecisionState 99 "correct" (Or.inl rfl) (by decide)⟩

/-- Counterexample to C8 as stated: logging with an empty metadata map
stores NULL (`json.dumps(metadata) if metadata else None`), so the entry
read back decodes to `None`, not to the logged empty map. -/
theorem C8_empty_metadata_counterexample :
    ((get_agent_logs (log_interaction exAgentState "a1" "sess" "agent_request"
          "agent_to_manager" "hello" (some [])) (some "a1") none none none).map
        (fun row => (row.content, row.metadata)) = [("hello", (none : Option Meta))]) ∧
    (some ([] : Meta)) ≠ (none : Option Meta) := by
  exact ⟨rfl, by simp⟩

/-- C8 (amended): for every spawned agent, a logged entry is returned by
`get_agent_logs(agent_id=...)` and by the JSON export with identical
content and, whenever the logged metadata is absent or a non-empty map,
identical metadata after decode; an empty metadata map is stored as NULL
and decodes to `None`. -/
theorem C8_log_roundtrip :
    ∀ (s : DaemonState) (aid sid itype dir content : String) (md : Option Meta),
      s.agents.any (fun a => a.id == aid) = true →
      md ≠ some [] →
      ∃ row : LogRow,
        row ∈ get_agent_logs (log_interaction s aid sid itype dir content md)
            (some aid) none none none ∧
        row.id = s.next_log_id ∧ row.content = content ∧ row.metadata = md ∧
        row ∈ export_logs_json (log_interaction s aid sid itype dir content md) aid := by
  intro s aid sid itype dir content md hag hmd
  have hmeta : truthyMeta md = md := by
    cases md with
    | none => rfl
    | some l =>
      have hl : ¬ (l = []) := fun h => hmd (by rw [h])
      simp [truthyMeta, hl]
  obtain ⟨a, ha, hab⟩ := List.any_eq_true.mp hag
  have haid : a.id = aid := by simpa using hab
  set e : LogEntry :=
    { id := s.next_log_id, agent_id := aid, session_id := sid, interaction_type := itype,
      direction := dir, content := content, metadata := md, timestamp := s.clock } with he
  have hlogs : (log_interaction s aid sid itype dir content md).logs = s.logs ++ [e] := by
    simp [log_interaction, he, hmeta]
  have hagents : (log_interaction s aid sid itype dir content md).agents = s.agents := rfl
  have hfilterpass : optFilter (some aid) e.agent_id &&
      optFilter (none : Option String) e.session_id &&
      optFilter (none : Option String) e.interaction_type = true := by
    by_cases haid0 : aid = "" <;> simp [optFilter, he, haid0]
  refine ⟨{ id := s.next_log_id, agent_id := aid, task_description := a.task_description,
            session_id := sid, interaction_type := itype, direction := dir, content := content,
            metadata := md, timestamp := s.clock }, ?_, rfl, rfl, rfl, ?_⟩
  · simp only [get_agent_logs, applyLimit, hlogs, hagents]
    refine List.mem_flatMap.mpr ⟨e, List.mem_filter.mpr ⟨by simp, hfilterpass⟩, ?_⟩
    refine List.mem_map.mpr ⟨a, List.mem_filter.mpr ⟨ha, by simp [haid]⟩, ?_⟩
    simp [he]
  · simp only [export_logs_json, get_agent_logs, applyLimit, hlogs, hagents]
    refine List.mem_flatMap.mpr ⟨e, List.mem_filter.mpr ⟨by simp, hfilterpass⟩, ?_⟩
    refine List.mem_map.mpr ⟨a, List.mem_filter.mpr ⟨ha, by simp [haid]⟩, ?_⟩
    simp [he]

/-- Witness for C8 (amended): a log call with a one-entry metadata map on
the one-agent store round-trips through retrieval and JSON export. -/
theorem C8_log_roundtrip_witness :
    (exAgentState.agents.any (fun a => a.id == "a1") = true) ∧
    ((some [("k", JVal.jstr "v")] : Option Meta) ≠ some []) ∧
    (∃ row : LogRow,
      row ∈ get_agent_logs (log_interaction exAgentState "a1" "sess" "agent_request"
          "agent_to_manager" "hello" (some [("k", JVal.jstr "v")]))
          (some "a1") none none none ∧
      row.id = exAgentState.next_log_id ∧ row.content = "hello" ∧
      row.metadata = some [("k", JVal.jstr "v")] ∧
      row ∈ export_logs_json (log_interaction exAgentState "a1" "sess" "agent_request"
          "agent_to_manager" "hello" (some [("k", JVal.jstr "v")])) "a1") := by
  refine ⟨by decide, by simp, ?_⟩
  exact C8_log_roundtrip exAgentState "a1" "sess" "agent_request" "agent_to_manager" "hello"
    (some [("k", JVal.jstr "v")]) (by decide) (by simp)

end Mcl
